import Mathlib

/-!
Verification development for the background-video components and the
theme-context provider of the coming_soon front-end.

The embedding below is a shallow model of the TypeScript sources:

* `AuroraStarsBackground.tsx` — the dual-theme (light/dark) background-video
  controller: browser detection, the one-shot interaction listeners, the
  `loadVideo` load/play sequence with its 3000 ms timeout fallback and the
  100 ms play retry, the theme-transition effect with its 300 ms commit
  timer, and the rendered opacity expressions.
* `theme-context.tsx` — the ThemeProvider: the `createContext` default
  value, `useTheme`, `updateThemeVariables` and `toggleTheme`.
* the unnamed BackgroundVideo variants — `checkMobile` device detection.

Pure functions are translated as Lean functions; the event-driven parts
(timers, DOM listeners, promise settlement) are translated as explicit
state-passing over small event lists, with each step function mirroring
one handler of the source.
-/

namespace ComingSoon

/- ### Character-list substring matching

Models the JavaScript regex-literal / `String.includes` containment tests
used by the detection helpers.  `charsStartWith pat s` is true when `pat`
is an initial segment of `s`; `charsContain pat s` when `pat` occurs
anywhere in `s`. -/

def charsStartWith : List Char → List Char → Bool
  | [], _ => true
  | _ :: _, [] => false
  | p :: ps, c :: cs => p == c && charsStartWith ps cs

def charsContain (pat : List Char) : List Char → Bool
  | [] => charsStartWith pat []
  | c :: cs => charsStartWith pat (c :: cs) || charsContain pat cs

/-- ASCII lowercasing of a string as a character list, modelling
JavaScript `toLowerCase()` on the ASCII range the detectors test. -/
def toLowerChars (s : String) : List Char :=
  s.toList.map Char.toLower

/-- Substring containment on strings: does `s` contain `pat`? -/
def containsSub (s pat : String) : Bool :=
  charsContain pat.toList s.toList

/-- Case-insensitive containment, modelling a `/pat/i.test(s)` regex test
on a single literal alternative. -/
def containsCI (s pat : String) : Bool :=
  charsContain (toLowerChars pat) (toLowerChars s)

/- ### Device-class and browser detection -/

/-- The keyword alternatives of the regex in the unnamed BackgroundVideo
variant: `/android|webos|iphone|ipad|ipod|blackberry|iemobile|opera mini/i`. -/
def mobileRegexKeywords : List String :=
  ["android", "webos", "iphone", "ipad", "ipod", "blackberry", "iemobile", "opera mini"]

/-- `checkMobile` of the unnamed BackgroundVideo variant: the lowercased
user agent is tested against the keyword regex, OR the viewport width is
at most 768. -/
def checkMobile (ua : String) (innerWidth : Nat) : Bool :=
  mobileRegexKeywords.any (fun k => charsContain k.toList (toLowerChars ua))
    || innerWidth ≤ 768

/-- The keyword array of the second BackgroundVideo variant:
`['mobile', 'android', 'iphone', 'ipad', 'ipod', 'blackberry', 'windows phone']`. -/
def mobileKeywordList : List String :=
  ["mobile", "android", "iphone", "ipad", "ipod", "blackberry", "windows phone"]

/-- `checkMobile` of the second BackgroundVideo variant:
`mobileKeywords.some(k => userAgent.includes(k)) || window.innerWidth <= 768`
on the lowercased user agent. -/
def checkMobileKW (ua : String) (innerWidth : Nat) : Bool :=
  mobileKeywordList.any (fun k => charsContain k.toList (toLowerChars ua))
    || innerWidth ≤ 768

/-- `isSafariOrIOS`:
`/iPad|iPhone|iPod|Safari/i.test(ua) && !/Chrome/i.test(ua)`. -/
def isSafariOrIOS (ua : String) : Bool :=
  (containsCI ua "iPad" || containsCI ua "iPhone" ||
   containsCI ua "iPod" || containsCI ua "Safari")
  && !(containsCI ua "Chrome")

/- ### Theme context (`theme-context.tsx`) -/

/-- The value shape held by the theme context.  `toggleIsNoop` records
whether the `toggleTheme` member is the inert `() => {}` of the
`createContext` default rather than the provider's real toggle. -/
structure ThemeContextType where
  isDarkMode : Bool
  isThemeLoaded : Bool
  toggleIsNoop : Bool
deriving DecidableEq, Repr

/-- The default value passed to `createContext`:
`{ isDarkMode: false, toggleTheme: () => {}, isThemeLoaded: false }`. -/
def themeContextDefault : ThemeContextType :=
  { isDarkMode := false, isThemeLoaded := false, toggleIsNoop := true }

/-- JavaScript values a `useContext` call can produce here, with the
falsiness relevant to the `if (!context)` guard. -/
inductive JSValue where
  | undef
  | nullv
  | obj (c : ThemeContextType)
deriving DecidableEq, Repr

/-- `useContext(ThemeContext)`: the nearest provider's value when one
exists, and otherwise the `createContext` default value — which is an
object, never `null` or `undefined`. -/
def useContextThemeContext (provided : Option ThemeContextType) : JSValue :=
  match provided with
  | some c => .obj c
  | none => .obj themeContextDefault

/-- `useTheme`: reads the context and throws when the read value is falsy
(`if (!context) throw new Error(...)`).  An object is never falsy, so the
`.error` branch fires only for `undefined` or `null`. -/
def useTheme (provided : Option ThemeContextType) : Except String ThemeContextType :=
  match useContextThemeContext provided with
  | .undef => .error "useTheme must be used within a ThemeProvider"
  | .nullv => .error "useTheme must be used within a ThemeProvider"
  | .obj c => .ok c

/-- The dark palette set by `updateThemeVariables(true)`. -/
def darkThemeProperties : List (String × String) :=
  [("--theme-primary", "#a90068"), ("--theme-primary-hover", "#8a0055"),
   ("--theme-bg", "#0f0f23"), ("--theme-surface", "#1a1a2e"),
   ("--theme-text", "#ffffff"), ("--theme-text-muted", "#94a3b8"),
   ("--theme-border", "#374151"), ("--theme-accent", "#a90068")]

/-- The light palette set by `updateThemeVariables(false)`. -/
def lightThemeProperties : List (String × String) :=
  [("--theme-primary", "#3b82f6"), ("--theme-primary-hover", "#2563eb"),
   ("--theme-bg", "#ffffff"), ("--theme-surface", "#f8fafc"),
   ("--theme-text", "#000000"), ("--theme-text-muted", "#64748b"),
   ("--theme-border", "#e5e7eb"), ("--theme-accent", "#3b82f6")]

/-- The DOM mutations `updateThemeVariables` schedules on the next
animation frame: the two class toggles, the eight custom properties, and
the `meta[name="theme-color"]` hint. -/
structure ThemeFrameOps where
  darkClass : Bool
  lightClass : Bool
  cssProperties : List (String × String)
  metaThemeColor : String
deriving DecidableEq, Repr

/-- `updateThemeVariables(isDark)` as the frame of DOM mutations it
schedules. -/
def updateThemeVariables (isDark : Bool) : ThemeFrameOps :=
  { darkClass := isDark
    lightClass := !isDark
    cssProperties := if isDark then darkThemeProperties else lightThemeProperties
    metaThemeColor := if isDark then "#0f0f23" else "#ffffff" }

/-- The two effects of one `toggleTheme()` call: the scheduled variable
application and the preference string passed to the external store via
`setTheme(next)`. -/
structure ToggleThemeOps where
  scheduledFrame : ThemeFrameOps
  requestedTheme : String
deriving DecidableEq, Repr

/-- `toggleTheme`: `const next = isDarkMode ? 'light' : 'dark';
updateThemeVariables(!isDarkMode); setTheme(next);`. -/
def toggleTheme (isDarkMode : Bool) : ToggleThemeOps :=
  { scheduledFrame := updateThemeVariables (!isDarkMode)
    requestedTheme := if isDarkMode then "light" else "dark" }

/-- How the provider itself reads a concrete theme string back into the
dark flag: `currentTheme === 'dark'`. -/
def themeStringIsDark (t : String) : Bool :=
  t == "dark"

/- ### Rendered opacities (`AuroraStarsBackground` client render) -/

/-- The state the opacity expressions of the client render read.  The
committed `activeVideo` state variable is not read by any opacity
expression, so it is not a field here. -/
structure RenderState where
  isDarkMode : Bool
  userInteracted : Bool
  readyLight : Bool
  readyDark : Bool
deriving DecidableEq, Repr

/-- Light video: `opacity: !isDarkMode && videoReady.light && userInteracted ? 1 : 0`. -/
def lightVideoOpacity (s : RenderState) : Nat :=
  if !s.isDarkMode && s.readyLight && s.userInteracted then 1 else 0

/-- Dark video: `opacity: isDarkMode && videoReady.dark && userInteracted ? 1 : 0`. -/
def darkVideoOpacity (s : RenderState) : Nat :=
  if s.isDarkMode && s.readyDark && s.userInteracted then 1 else 0

/-- Poster fallback div:
`opacity: (!videoReady.light && !isDarkMode) || (!videoReady.dark && isDarkMode) || !userInteracted ? 1 : 0`. -/
def posterOpacity (s : RenderState) : Nat :=
  if (!s.readyLight && !s.isDarkMode) || (!s.readyDark && s.isDarkMode)
     || !s.userInteracted then 1 else 0

/- ### Theme-transition effect (`setActiveVideo` / `transitionTimeoutRef`) -/

/-- State read and written by the theme-transition effect.  `true` stands
for the dark variant.  `pendingCommit` is the single
`transitionTimeoutRef` timer: `some target` when a 300 ms commit to
`target` is scheduled.  The model assumes `isThemeLoaded` and
`userInteracted` hold throughout, as in the claim's scenario. -/
structure TransitionState where
  isDarkMode : Bool
  activeVideo : Bool
  pendingCommit : Option Bool
deriving DecidableEq, Repr

/-- One run of the transition effect body.  When the requested variant
differs from `activeVideo` it clears any pending timer and schedules a
fresh 300 ms commit to the requested variant (overwriting `pendingCommit`
captures the `clearTimeout` + `setTimeout` pair).  When they agree the
body is skipped entirely — in particular a pending timer is NOT cleared. -/
def themeTransitionEffect (s : TransitionState) : TransitionState :=
  if s.isDarkMode != s.activeVideo then
    { s with pendingCommit := some s.isDarkMode }
  else s

/-- External events driving the transition model: a resolved-theme flip
(after which React re-runs the effect), and the commit timer firing
(`setActiveVideo(newActiveVideo)`, after which the effect re-runs because
`activeVideo` is in its dependency array). -/
inductive TransitionEvent where
  | themeFlip
  | commitTimerFires
deriving DecidableEq, Repr

/-- One event step of the transition model. -/
def transitionStep (s : TransitionState) : TransitionEvent → TransitionState
  | .themeFlip => themeTransitionEffect { s with isDarkMode := !s.isDarkMode }
  | .commitTimerFires =>
    match s.pendingCommit with
    | some target =>
      themeTransitionEffect { s with activeVideo := target, pendingCommit := none }
    | none => s

/-- Run a list of events in order. -/
def transitionRun (s : TransitionState) (evs : List TransitionEvent) : TransitionState :=
  evs.foldl transitionStep s

/- ### One-shot interaction listeners (mount effect) -/

/-- Listener-side state of the mount effect: whether the `touchstart` /
`click` pair is currently registered, how many times `handleInteraction`
has run, the `userInteracted` flag, and the `sessionStorage` record. -/
structure InteractionState where
  listenersRegistered : Bool
  fireCount : Nat
  userInteracted : Bool
  sessionRecord : Bool
deriving DecidableEq, Repr

/-- The mount effect: with a prior record or a non-restricted browser it
marks interaction satisfied and registers nothing; otherwise it registers
the gesture listeners. -/
def mountInteractionSetup (hasInteracted safariOrIOSDetected : Bool) : InteractionState :=
  if hasInteracted || !safariOrIOSDetected then
    { listenersRegistered := false, fireCount := 0
      userInteracted := true, sessionRecord := hasInteracted }
  else
    { listenersRegistered := true, fireCount := 0
      userInteracted := false, sessionRecord := hasInteracted }

/-- A gesture arriving: `handleInteraction` runs only while its listeners
are registered, and its body marks interaction satisfied, persists the
record, and removes both listeners. -/
def handleInteraction (s : InteractionState) : InteractionState :=
  if s.listenersRegistered then
    { listenersRegistered := false, fireCount := s.fireCount + 1
      userInteracted := true, sessionRecord := true }
  else s

/-- Dispatch `n` gestures in sequence. -/
def dispatchGestures (s : InteractionState) : Nat → InteractionState
  | 0 => s
  | n + 1 => dispatchGestures (handleInteraction s) n

/-- The effect's cleanup function: remove both listeners. -/
def unmountCleanup (s : InteractionState) : InteractionState :=
  { s with listenersRegistered := false }

/- ### `loadVideo`: the load race, the play retry, the ready update -/

/-- The three ways the load promise's executor can be poked. -/
inductive LoadSignal where
  | canplaythrough
  | errorEvent
  | timeoutFallback
deriving DecidableEq, Repr

/-- The environment of the load race: when (if ever) the media element
would fire `canplaythrough`, and when (if ever) `error`.  Times are in
milliseconds from the start of the wait. -/
structure RaceEnv where
  canplayAt : Option Nat
  errorAt : Option Nat
deriving DecidableEq, Repr

/-- The fixed delay of the `setTimeout` fallback inside the executor. -/
def timeoutDelayMs : Nat := 3000

/-- Every settle attempt the executor will ever receive, tagged with its
time.  The `setTimeout` callback is registered unconditionally and no
`clearTimeout` exists anywhere in `loadVideo`, so the timeout entry is
always present. -/
def raceEvents (env : RaceEnv) : List (Nat × LoadSignal) :=
  (match env.canplayAt with | some t => [(t, .canplaythrough)] | none => []) ++
  (match env.errorAt with | some t => [(t, .errorEvent)] | none => []) ++
  [(timeoutDelayMs, .timeoutFallback)]

/-- Stable insertion by time: an element is placed before strictly later
ones, and after already-placed ones with the same time. -/
def insertByTime (e : Nat × LoadSignal) :
    List (Nat × LoadSignal) → List (Nat × LoadSignal)
  | [] => [e]
  | x :: xs => if x.1 < e.1 then x :: insertByTime e xs else e :: x :: xs

/-- Order the settle attempts by time (stable, so registration order
breaks ties). -/
def sortByTime (l : List (Nat × LoadSignal)) : List (Nat × LoadSignal) :=
  l.foldr insertByTime []

/-- First-write-wins settlement: each attempt in time order calls
`resolve` or `reject`, and only the first has any effect on the promise. -/
def settleStep (acc : Option LoadSignal) (e : Nat × LoadSignal) : Option LoadSignal :=
  match acc with
  | some r => some r
  | none => some e.2

/-- The signal that actually settles the load promise. -/
def promiseFirstSettle (env : RaceEnv) : Option LoadSignal :=
  (sortByTime (raceEvents env)).foldl settleStep none

/-- The settled outcome of the load wait.  The `none` branch is
unreachable because the timeout attempt is always present. -/
def loadOutcome (env : RaceEnv) : LoadSignal :=
  match promiseFirstSettle env with
  | some sig => sig
  | none => .timeoutFallback

/-- Environment of one `loadVideo(videoRef, type)` call. -/
structure LoadEnv where
  hasVideo : Bool
  userInteracted : Bool
  race : RaceEnv
  playRejects : Bool
  retryRejects : Bool
deriving DecidableEq, Repr

/-- Observable outcome of one `loadVideo` call: the `setVideoReady`
update for this variant (`none` when the early return fired), how many
times `video.play()` was called, and the delay of the scheduled retry
when one was scheduled. -/
structure LoadResult where
  readyUpdate : Option Bool
  playCalls : Nat
  retryDelayMs : Option Nat
deriving DecidableEq, Repr

/-- `loadVideo`: early return without a video or before interaction;
a rejected load promise (`error` settled first) is caught and marks the
variant not ready; otherwise `video.play()` is requested, a rejection is
caught by scheduling exactly one retry after 100 ms whose own failure is
swallowed by `.catch(() => {})`, and the variant is marked ready
unconditionally after the play step. -/
def loadVideo (env : LoadEnv) : LoadResult :=
  if !env.hasVideo || !env.userInteracted then
    { readyUpdate := none, playCalls := 0, retryDelayMs := none }
  else
    match loadOutcome env.race with
    | .errorEvent => { readyUpdate := some false, playCalls := 0, retryDelayMs := none }
    | _ =>
      if env.playRejects then
        { readyUpdate := some true, playCalls := 2, retryDelayMs := some 100 }
      else
        { readyUpdate := some true, playCalls := 1, retryDelayMs := none }

/-! ## Theorems -/

/-- C8: for every viewport width at most 768 px both `checkMobile`
variants return mobile, and for every width above 768 px whose user agent
contains none of the variant's mobile keywords (case-insensitively, as
the lowercasing in the source makes the tests) they return desktop. -/
theorem checkMobile_width_and_keywords (ua : String) (w : Nat) :
    (w ≤ 768 → checkMobile ua w = true ∧ checkMobileKW ua w = true) ∧
    (768 < w →
      mobileRegexKeywords.all (fun k => !charsContain k.toList (toLowerChars ua)) = true →
      checkMobile ua w = false) ∧
    (768 < w →
      mobileKeywordList.all (fun k => !charsContain k.toList (toLowerChars ua)) = true →
      checkMobileKW ua w = false) := by
  refine ⟨fun hw => ?_, fun hw hk => ?_, fun hw hk => ?_⟩
  · exact ⟨by simp [checkMobile, hw], by simp [checkMobileKW, hw]⟩
  · have hw2 : ¬ w ≤ 768 := Nat.not_le.mpr hw
    have hA : mobileRegexKeywords.any
        (fun k => charsContain k.toList (toLowerChars ua)) = false := by
      simp only [List.all_eq_true, Bool.not_eq_true'] at hk
      simp only [List.any_eq_false]
      intro k hkm
      exact Bool.not_eq_true _ ▸ (hk k hkm)
    unfold checkMobile
    rw [hA]
    simp [hw2]
  · have hw2 : ¬ w ≤ 768 := Nat.not_le.mpr hw
    have hA : mobileKeywordList.any
        (fun k => charsContain k.toList (toLowerChars ua)) = false := by
      simp only [List.all_eq_true, Bool.not_eq_true'] at hk
      simp only [List.any_eq_false]
      intro k hkm
      exact Bool.not_eq_true _ ▸ (hk k hkm)
    unfold checkMobileKW
    rw [hA]
    simp [hw2]

/-- C8 witness: a 600 px viewport is mobile and a 1024 px viewport with a
desktop Chrome user agent is desktop, for both variants. -/
theorem checkMobile_width_and_keywords_witness :
    checkMobile "Mozilla/5.0 (Windows NT 10.0; Win64; x64) Chrome/120.0" 600 = true ∧
    checkMobile "Mozilla/5.0 (Windows NT 10.0; Win64; x64) Chrome/120.0" 1024 = false ∧
    checkMobileKW "Mozilla/5.0 (Windows NT 10.0; Win64; x64) Chrome/120.0" 1024 = false := by
  refine ⟨((checkMobile_width_and_keywords _ 600).1 (by decide)).1,
    (checkMobile_width_and_keywords _ 1024).2.1 (by decide) (by decide),
    (checkMobile_width_and_keywords _ 1024).2.2 (by decide) (by decide)⟩

/-- C9: a user agent containing "Safari" (as the case-insensitive regex
of the source reads containment) and not containing "Chrome" makes
`isSafariOrIOS` return true, and any user agent containing "Chrome"
makes it return false regardless of the other tokens present. -/
theorem isSafariOrIOS_safari_chrome (ua : String) :
    (containsCI ua "Safari" = true → containsCI ua "Chrome" = false →
      isSafariOrIOS ua = true) ∧
    (containsCI ua "Chrome" = true → isSafariOrIOS ua = false) := by
  constructor
  · intro hs hc
    simp [isSafariOrIOS, hs, hc]
  · intro hc
    simp [isSafariOrIOS, hc]

/-- C9 witness: macOS Safari is detected as restricted, and a Chrome user
agent that also advertises Safari is not. -/
theorem isSafariOrIOS_safari_chrome_witness :
    isSafariOrIOS "Mozilla/5.0 (Macintosh) AppleWebKit/605.1.15 Version/17.0 Safari/605.1.15" = true ∧
    isSafariOrIOS "Mozilla/5.0 (Windows NT 10.0) Chrome/120.0 Safari/537.36" = false := by
  refine ⟨(isSafariOrIOS_safari_chrome _).1 (by decide) (by decide),
    (isSafariOrIOS_safari_chrome _).2 (by decide)⟩

/-- C3 (code bug): consuming `useTheme` with no `ThemeProvider` ancestor
does not raise — `useContext` yields the `createContext` default, which
is an object and hence truthy, so the `if (!context) throw` guard never
fires and the default value is returned silently. -/
theorem useTheme_outside_provider_silently_defaults :
    useTheme none = Except.ok themeContextDefault ∧
    themeContextDefault.toggleIsNoop = true := by
  exact ⟨rfl, rfl⟩

/-- C7: `toggleTheme` computes the inverse of the current dark flag,
schedules the variable application for that inverse value (classes,
palette and meta hint all follow the inverse), and the preference string
it hands to the external store denotes that same inverse value under the
provider's own reading of theme strings. -/
theorem toggleTheme_inverse_and_persist (d : Bool) :
    (toggleTheme d).scheduledFrame = updateThemeVariables (!d) ∧
    (toggleTheme d).scheduledFrame.darkClass = !d ∧
    (toggleTheme d).scheduledFrame.lightClass = d ∧
    (toggleTheme d).scheduledFrame.cssProperties
      = (if !d then darkThemeProperties else lightThemeProperties) ∧
    themeStringIsDark (toggleTheme d).requestedTheme = !d := by
  cases d <;> exact ⟨rfl, rfl, rfl, rfl, rfl⟩

/-- A state used to test the cross-fade policy: dark theme resolved,
interaction satisfied, both variants ready. -/
def bothReadyDarkState : RenderState :=
  { isDarkMode := true, userInteracted := true, readyLight := true, readyDark := true }

/-- C1 counterexample: at `bothReadyDarkState` the light video is not in
the shown case (dark is the active variant), so the claim requires the
poster fallback at opacity 1 — but the render gives the poster opacity 0,
because the poster only tracks the theme-selected variant. -/
theorem crossfade_poster_counterexample :
    (!bothReadyDarkState.isDarkMode && bothReadyDarkState.readyLight
      && bothReadyDarkState.userInteracted) = false ∧
    lightVideoOpacity bothReadyDarkState = 0 ∧
    posterOpacity bothReadyDarkState = 0 := by
  decide

/-- C1 amended: a video's opacity is 1 exactly when its variant matches
the resolved theme, is marked ready, and interaction is satisfied, and is
0 otherwise; the poster fallback's opacity is 1 exactly when neither
video is shown — that is, when the theme-selected variant is not ready or
interaction is unsatisfied — not merely because some video is hidden. -/
theorem crossfade_policy_amended (s : RenderState) :
    (lightVideoOpacity s = 1 ↔
      (s.isDarkMode = false ∧ s.readyLight = true ∧ s.userInteracted = true)) ∧
    (darkVideoOpacity s = 1 ↔
      (s.isDarkMode = true ∧ s.readyDark = true ∧ s.userInteracted = true)) ∧
    (lightVideoOpacity s = 0 ∨ lightVideoOpacity s = 1) ∧
    (darkVideoOpacity s = 0 ∨ darkVideoOpacity s = 1) ∧
    (posterOpacity s = 1 ↔ (lightVideoOpacity s = 0 ∧ darkVideoOpacity s = 0)) := by
  obtain ⟨a, b, c, d⟩ := s
  cases a <;> cases b <;> cases c <;> cases d <;> decide

/-- The quiescent transition state for a resolved theme `d`: the active
variant agrees with the theme and no commit is pending. -/
def quiescent (d : Bool) : TransitionState :=
  { isDarkMode := d, activeVideo := d, pendingCommit := none }

/-- C2 counterexample: starting quiescent in light theme, flip to dark
and immediately flip back (both flips inside the 300 ms window, i.e.
before any `commitTimerFires`).  After the second flip the commit to dark
is still pending — it was not cancelled, because the effect body is
guarded by `newActiveVideo !== activeVideo` and the second flip makes
them equal — and when that timer fires the dark variant is committed as
active even though the final requested theme is light. -/
theorem double_flip_commit_not_cancelled :
    (transitionRun (quiescent false) [.themeFlip, .themeFlip]).pendingCommit
      = some true ∧
    (transitionRun (quiescent false)
      [.themeFlip, .themeFlip, .commitTimerFires]).activeVideo = true := by
  decide

/-- C2 amended: after a double flip within the settle window the pending
intermediate commit is not cancelled; it fires and transiently commits
the intermediate theme, the effect then re-runs and schedules a
corrective commit, and once that corrective timer has also fired the
committed active variant equals the final requested theme, with no commit
left pending. -/
theorem double_flip_eventual_commit (d : Bool) :
    (transitionRun (quiescent d) [.themeFlip, .themeFlip]).pendingCommit
      = some (!d) ∧
    (transitionRun (quiescent d)
      [.themeFlip, .themeFlip, .commitTimerFires]).activeVideo = !d ∧
    transitionRun (quiescent d)
      [.themeFlip, .themeFlip, .commitTimerFires, .commitTimerFires]
      = quiescent d := by
  cases d <;> decide

/-- Gestures dispatched to an unregistered listener state change nothing. -/
theorem dispatchGestures_of_unregistered (s : InteractionState)
    (h : s.listenersRegistered = false) (n : Nat) :
    dispatchGestures s n = s := by
  induction n with
  | zero => rfl
  | succ m ih =>
    have hs : handleInteraction s = s := by
      unfold handleInteraction
      rw [h]
      simp
    show dispatchGestures (handleInteraction s) m = s
    rw [hs, ih]

/-- C6: for every mount (any prior record, any browser) and any number of
gestures, the interaction handler fires at most once; while the listeners
are still registered it has not fired at all; and the listeners end up
deregistered both when the handler fires and when the unmount cleanup
runs. -/
theorem interaction_listener_one_shot (hasInteracted safari : Bool) (n : Nat) :
    (dispatchGestures (mountInteractionSetup hasInteracted safari) n).fireCount ≤ 1 ∧
    ((dispatchGestures (mountInteractionSetup hasInteracted safari) n).fireCount = 1 →
      (dispatchGestures (mountInteractionSetup hasInteracted safari) n).listenersRegistered
        = false) ∧
    (unmountCleanup
      (dispatchGestures (mountInteractionSetup hasInteracted safari) n)).listenersRegistered
        = false := by
  unfold mountInteractionSetup
  by_cases hcond : (hasInteracted || !safari) = true
  · rw [if_pos hcond]
    rw [dispatchGestures_of_unregistered _ rfl n]
    exact ⟨Nat.zero_le 1, fun _ => rfl, rfl⟩
  · rw [if_neg hcond]
    cases n with
    | zero =>
      exact ⟨Nat.zero_le 1, ⟨fun h => by simp [dispatchGestures] at h, rfl⟩⟩
    | succ m =>
      have hgone : handleInteraction
          ({ listenersRegistered := true, fireCount := 0
             userInteracted := false, sessionRecord := hasInteracted } : InteractionState)
          = { listenersRegistered := false, fireCount := 1
              userInteracted := true, sessionRecord := true } := rfl
      have hfired : dispatchGestures
          ({ listenersRegistered := true, fireCount := 0
             userInteracted := false, sessionRecord := hasInteracted } : InteractionState)
          (m + 1)
          = { listenersRegistered := false, fireCount := 1
              userInteracted := true, sessionRecord := true } := by
        show dispatchGestures (handleInteraction _) m = _
        rw [hgone, dispatchGestures_of_unregistered _ rfl m]
      rw [hfired]
      exact ⟨by decide, fun _ => rfl, rfl⟩

/-- An already-settled promise ignores every later settle attempt. -/
theorem settle_foldl_of_some (l : List (Nat × LoadSignal)) (r : LoadSignal) :
    l.foldl settleStep (some r) = some r := by
  induction l with
  | nil => rfl
  | cons x xs ih => exact ih

/-- First-write-wins settlement over any attempt sequence: the promise
takes the value of the first attempt and nothing after it matters. -/
theorem settle_foldl_head (l : List (Nat × LoadSignal)) :
    l.foldl settleStep none = l.head?.map (fun e => e.2) := by
  cases l with
  | nil => rfl
  | cons x xs =>
    show xs.foldl settleStep (some x.2) = some x.2
    exact settle_foldl_of_some xs x.2

/-- C10: the 3000 ms fallback timer's settle attempt is present in every
environment (no `clearTimeout` exists, so settling via `canplaythrough`
or `error` never cancels it); the promise outcome is exactly the earliest
attempt's signal, later attempts — the stale timer included — having no
effect; and concretely, whenever `canplaythrough` arrives before the
3000 ms mark with no error event, the load outcome is `canplaythrough`
even though the timer attempt is still pending. -/
theorem stale_timeout_timer_harmless (env : RaceEnv) :
    (timeoutDelayMs, LoadSignal.timeoutFallback) ∈ raceEvents env ∧
    promiseFirstSettle env = (sortByTime (raceEvents env)).head?.map (fun e => e.2) ∧
    (∀ t : Nat, env.canplayAt = some t → t < timeoutDelayMs → env.errorAt = none →
      loadOutcome env = .canplaythrough) := by
  refine ⟨?_, settle_foldl_head _, ?_⟩
  · cases hc : env.canplayAt <;> cases he : env.errorAt <;> simp [raceEvents]
  · intro t hc hlt he
    have henv : env = { canplayAt := some t, errorAt := none } := by
      cases env
      simp_all
    subst henv
    have hnot : ¬ (timeoutDelayMs < t) := by
      intro h2
      exact absurd (Nat.lt_trans h2 hlt) (Nat.lt_irrefl _)
    unfold loadOutcome promiseFirstSettle sortByTime raceEvents
    simp only [List.append_nil, List.nil_append, List.foldr]
    rw [show insertByTime (timeoutDelayMs, LoadSignal.timeoutFallback) []
        = [(timeoutDelayMs, LoadSignal.timeoutFallback)] from rfl]
    unfold insertByTime
    rw [if_neg hnot]
    rfl

/-- C10 witness: `canplaythrough` at 1000 ms with no error settles the
load as `canplaythrough` despite the uncancelled 3000 ms timer. -/
theorem stale_timeout_timer_harmless_witness :
    loadOutcome { canplayAt := some 1000, errorAt := none } = .canplaythrough :=
  (stale_timeout_timer_harmless { canplayAt := some 1000, errorAt := none }).2.2
    1000 rfl (by decide) rfl

/-- C4: when the video exists, interaction is satisfied, the load wait
does not settle as an error, and the first `video.play()` rejects, then
exactly one retry is scheduled, after a fixed 100 ms delay, and the
variant is marked ready; moreover the retry's own outcome is swallowed —
the result of `loadVideo` does not depend on it — so the variant is
marked ready even when both play attempts reject. -/
theorem play_retry_still_marks_ready (env : LoadEnv)
    (hv : env.hasVideo = true) (hu : env.userInteracted = true)
    (hp : env.playRejects = true)
    (hl : loadOutcome env.race ≠ .errorEvent) :
    loadVideo env
      = { readyUpdate := some true, playCalls := 2, retryDelayMs := some 100 } ∧
    loadVideo env = loadVideo { env with retryRejects := !env.retryRejects } := by
  have hmain : ∀ rr : Bool,
      loadVideo { env with retryRejects := rr }
        = { readyUpdate := some true, playCalls := 2, retryDelayMs := some 100 } := by
    intro rr
    unfold loadVideo
    rw [hv, hu]
    simp only [Bool.not_true, Bool.false_or, Bool.or_self, if_neg (by simp : ¬ (false = true))]
    cases hout : loadOutcome env.race with
    | errorEvent => exact absurd hout hl
    | canplaythrough => simp [hp]
    | timeoutFallback => simp [hp]
  have henv : { env with retryRejects := env.retryRejects } = env := rfl
  constructor
  · calc loadVideo env = loadVideo { env with retryRejects := env.retryRejects } := by rw [henv]
      _ = _ := hmain env.retryRejects
  · calc loadVideo env = loadVideo { env with retryRejects := env.retryRejects } := by rw [henv]
      _ = loadVideo { env with retryRejects := !env.retryRejects } := by
          rw [hmain env.retryRejects, hmain (!env.retryRejects)]

/-- C4 witness: with both play attempts rejecting (and the load settled
by `canplaythrough` at 500 ms) the variant is still marked ready after
one 100 ms retry. -/
theorem play_retry_still_marks_ready_witness :
    loadVideo
      { hasVideo := true, userInteracted := true
        race := { canplayAt := some 500, errorAt := none }
        playRejects := true, retryRejects := true }
      = { readyUpdate := some true, playCalls := 2, retryDelayMs := some 100 } :=
  (play_retry_still_marks_ready
    { hasVideo := true, userInteracted := true
      race := { canplayAt := some 500, errorAt := none }
      playRejects := true, retryRejects := true }
    rfl rfl rfl (by decide)).1

/-- C5: when neither `canplaythrough` nor `error` ever arrives, the load
wait settles through the timeout fallback at 3000 ms, exactly one timeout
attempt exists, and the variant's readiness still becomes true. -/
theorem timeout_fallback_marks_ready (env : LoadEnv)
    (hv : env.hasVideo = true) (hu : env.userInteracted = true)
    (hc : env.race.canplayAt = none) (he : env.race.errorAt = none) :
    loadOutcome env.race = .timeoutFallback ∧
    (raceEvents env.race).countP (fun e => e.2 == LoadSignal.timeoutFallback) = 1 ∧
    (loadVideo env).readyUpdate = some true := by
  have hrace : env.race = { canplayAt := none, errorAt := none } := by
    cases hr : env.race
    simp_all
  have hout : loadOutcome env.race = .timeoutFallback := by
    rw [hrace]
    rfl
  refine ⟨hout, by rw [hrace]; rfl, ?_⟩
  unfold loadVideo
  rw [hv, hu, hout]
  simp only [Bool.not_true, Bool.false_or, Bool.or_self, if_neg (by simp : ¬ (false = true))]
  cases env.playRejects <;> rfl

/-- C5 witness: a silent network (no media events at all) still yields a
ready variant through the single timeout attempt. -/
theorem timeout_fallback_marks_ready_witness :
    loadOutcome { canplayAt := none, errorAt := none } = .timeoutFallback ∧
    (loadVideo
      { hasVideo := true, userInteracted := true
        race := { canplayAt := none, errorAt := none }
        playRejects := false, retryRejects := false }).readyUpdate = some true := by
  have h := timeout_fallback_marks_ready
    { hasVideo := true, userInteracted := true
      race := { canplayAt := none, errorAt := none }
      playRejects := false, retryRejects := false }
    rfl rfl rfl rfl
  exact ⟨h.1, h.2.2⟩

end ComingSoon
